import Mathlib

/-!
Shallow embedding of the crawl-non-margin-list pipeline (`src/main.py`).

The program aggregates trading-restricted securities from two sources:
an HSX paginated JSON API (`get_hsx_list`, `get_hsx_list_all`) and an
HNX browser-driven table crawl (`crawl_current_page_from_html`,
`crawl_hnx_data`); `main_handler` combines both, reparses the `date`
column and serializes `{"data": [...]}`.

External effects (HTTP, Playwright, BeautifulSoup parsing) are modelled
as oracles passed in as functions; everything downstream of the oracles
is translated statement by statement from the Python source.
-/

/-- One canonical record, i.e. one row of the pandas DataFrames built by
both adapters after normalization (columns `ticker`, `name`, `date`,
`reason`, `exchange`, in that column order). -/
structure Rec where
  ticker : String
  name : String
  date : String
  reason : String
  exchange : String
deriving DecidableEq

/-- An HTTP-level failure: models `fastapi.HTTPException(status_code, detail)`
as well as any other exception that `main_handler` converts to a 500. -/
structure HttpErr where
  status : Nat
  detail : String
deriving DecidableEq

/-- Minimal JSON value model for the serialized response.  There is no NaN
value: starlette's `JSONResponse.render` serializes with
`json.dumps(..., allow_nan=False, ...)`, so the float NaN that `pandas`
leaves for an unparseable date can never reach a rendered document — it
makes the serializer raise instead (see `dumpsRecord`). -/
inductive Json where
  | str : String → Json
  | arr : List Json → Json
  | obj : List (String × Json) → Json

deriving instance DecidableEq for Except

/-- Top-level keys of a JSON object. -/
def Json.keys : Json → List String
  | .obj kvs => kvs.map Prod.fst
  | _ => []

/-- ASCII digit test on a character. -/
def isDigitCh (c : Char) : Bool :=
  decide (48 ≤ c.toNat) && decide (c.toNat ≤ 57)

/-- Numeric value of a digit character. -/
def chVal (c : Char) : Nat := c.toNat - 48

/-- Digit character for `n % 10`. -/
def digitCh (n : Nat) : Char := Char.ofNat (48 + n % 10)

/-- Value of a digit string, most significant first. -/
def digitsVal (l : List Char) : Nat := l.foldl (fun a c => a * 10 + chVal c) 0

/-- Split a character list on a separator, like Python `str.split(sep)`. -/
def splitChar (sep : Char) : List Char → List (List Char)
  | [] => [[]]
  | c :: cs =>
    let r := splitChar sep cs
    if c == sep then [] :: r
    else
      match r with
      | [] => [[c]]
      | h :: t => (c :: h) :: t

/-- Gregorian leap-year rule, as used by `datetime`. -/
def isLeap (y : Nat) : Bool := (y % 4 == 0 && y % 100 != 0) || y % 400 == 0

/-- Number of days in a month, as validated by `datetime.datetime`. -/
def daysInMonth (y m : Nat) : Nat :=
  if m = 2 then (if isLeap y = true then 29 else 28)
  else if m = 4 ∨ m = 6 ∨ m = 9 ∨ m = 11 then 30 else 31

/-- Lexicographic order on (year, month, day) triples. -/
def tripleLE (a b : Nat × Nat × Nat) : Prop :=
  a.1 < b.1 ∨ (a.1 = b.1 ∧ (a.2.1 < b.2.1 ∨ (a.2.1 = b.2.1 ∧ a.2.2 ≤ b.2.2)))

instance (a b : Nat × Nat × Nat) : Decidable (tripleLE a b) := by
  unfold tripleLE; exact inferInstance

/-- Models `pd.to_datetime(s, format="%d/%m/%Y", errors="coerce")` (main.py lines
169-173), returned as `some (year, month, day)` on success and `none` for the
coerced `NaT`.  Mirrors CPython `_strptime` regexes used by pandas:
`%d` and `%m` are 1-2 digit fields (value ranges enforced), `%Y` is exactly
4 digits; the parsed triple must be a real calendar date and lie within the
`pd.Timestamp` range (1677-09-22 to 2262-04-11), else the value is coerced
to `NaT`. -/
def parseDMY (s : String) : Option (Nat × Nat × Nat) :=
  match splitChar '/' s.toList with
  | [ds, ms, ys] =>
    let d := digitsVal ds
    let m := digitsVal ms
    let y := digitsVal ys
    if ds ≠ [] ∧ ds.all isDigitCh = true ∧ ds.length ≤ 2 ∧
       ms ≠ [] ∧ ms.all isDigitCh = true ∧ ms.length ≤ 2 ∧
       ys.all isDigitCh = true ∧ ys.length = 4 ∧
       1 ≤ d ∧ 1 ≤ m ∧ m ≤ 12 ∧ d ≤ daysInMonth y m ∧
       tripleLE (1677, 9, 22) (y, m, d) ∧ tripleLE (y, m, d) (2262, 4, 11) then
      some (y, m, d)
    else none
  | _ => none

/-- Rendering per `Timestamp.strftime("%Y-%m-%d")`: zero-padded canonical rendering of a
calendar date (years in the `pd.Timestamp` range always have 4 digits). -/
def isoOfDate (y m d : Nat) : String :=
  ⟨[digitCh (y / 1000), digitCh (y / 100), digitCh (y / 10), digitCh y, '-',
    digitCh (m / 10), digitCh m, '-', digitCh (d / 10), digitCh d]⟩

/-- Parser for the canonical `YYYY-MM-DD` form, used to state that
normalization preserves the calendar date (round-trip). -/
def parseISO (s : String) : Option (Nat × Nat × Nat) :=
  match s.toList with
  | [y1, y2, y3, y4, s1, m1, m2, s2, d1, d2] =>
    let y := ((chVal y1 * 10 + chVal y2) * 10 + chVal y3) * 10 + chVal y4
    let m := chVal m1 * 10 + chVal m2
    let d := chVal d1 * 10 + chVal d2
    if s1 = '-' ∧ s2 = '-' ∧
       isDigitCh y1 = true ∧ isDigitCh y2 = true ∧ isDigitCh y3 = true ∧ isDigitCh y4 = true ∧
       isDigitCh m1 = true ∧ isDigitCh m2 = true ∧ isDigitCh d1 = true ∧ isDigitCh d2 = true ∧
       1 ≤ m ∧ m ≤ 12 ∧ 1 ≤ d ∧ d ≤ daysInMonth y m then
      some (y, m, d)
    else none
  | _ => none

/-- The per-value effect of main.py lines 169-174: `to_datetime(...,
errors="coerce").dt.strftime("%Y-%m-%d")`.  `some iso` for a parseable
day/month/year string, `none` for the NaN left in place of `NaT`. -/
def normalize_date (s : String) : Option String :=
  match parseDMY s with
  | some (y, m, d) => some (isoOfDate y m d)
  | none => none

/-- Python `str.strip()` as applied by `df["ticker"].str.strip()`. -/
def pyStrip (s : String) : String :=
  ⟨((s.toList.dropWhile Char.isWhitespace).reverse.dropWhile Char.isWhitespace).reverse⟩

/-- Character-level tag stripping: `remove_nested_spans` (main.py lines 21-26)
replaces every `span` element by its text and then takes `soup.get_text()`,
so the visible text of the fragment remains and every tag is removed. -/
def stripTags : List Char → Bool → List Char
  | [], _ => []
  | c :: cs, true => if c = '>' then stripTags cs false else stripTags cs true
  | c :: cs, false => if c = '<' then stripTags cs true else c :: stripTags cs false

/-- Function `remove_nested_spans` (main.py lines 21-26): markup is stripped down to
the visible text. -/
def remove_nested_spans (s : String) : String := ⟨stripTags s.toList false⟩

/-- Does `pat` match at the head of the list? -/
def matchesAt : List Char → List Char → Bool
  | [], _ => true
  | _ :: _, [] => false
  | p :: ps, c :: cs => p == c && matchesAt ps cs

/-- One fuel-indexed pass of Python `str.replace(pat, repl)`: scan left to
right, replacing non-overlapping occurrences of `pat`.  Each step consumes at
least one character, so fuel equal to the input length is exact for the
non-empty patterns used by the source; at fuel 0 the input is exhausted. -/
def replaceFuel (pat repl : List Char) : Nat → List Char → List Char
  | 0, _ => []
  | _ + 1, [] => []
  | fuel + 1, c :: cs =>
    if matchesAt pat (c :: cs) then
      match pat with
      | [] => c :: replaceFuel pat repl fuel cs
      | _ :: ps => repl ++ replaceFuel pat repl fuel (cs.drop ps.length)
    else c :: replaceFuel pat repl fuel cs

/-- Python `s.replace(pat, repl)` for non-empty `pat`. -/
def pyReplace (s pat repl : String) : String :=
  ⟨replaceFuel pat.toList repl.toList s.toList.length s.toList⟩

/-! ## HSX paginated API adapter (main.py lines 28-75) -/

/-- Normalization of one 7-cell HSX row after
`pd.DataFrame(all_cells, columns=["id","ticker","code1","code2","name","date","reason"])`:
`reason` is passed through `remove_nested_spans`, `exchange` is fixed to
`"HOSE"`, `ticker` is stripped, and `id`, `code1`, `code2` are dropped
(main.py lines 54-62). -/
def hsxRecOfCells (c : List String) : Rec :=
  { ticker := pyStrip (c.getD 1 ""), name := c.getD 4 "", date := c.getD 5 "",
    reason := remove_nested_spans (c.getD 6 ""), exchange := "HOSE" }

/-- main.py lines 48-63, given the `cell` lists of the decoded JSON `rows`.
An empty `rows` yields an empty frame (line 49-50).  Otherwise pandas builds
a frame whose width is the longest cell list, padding shorter rows with NaN:
if that width is not 7, the `columns=` assignment raises ValueError, caught
and re-raised as HTTPException 500 (lines 53-57); if the width is 7 but some
row is shorter, its padded `reason` cell is NaN and
`df["reason"].apply(remove_nested_spans)` raises an uncaught TypeError from
BeautifulSoup (line 59), which also aborts the request with a 500.  Only when
every row has exactly 7 cells does the page normalize. -/
def get_hsx_list_rows (rows : List (List String)) : Except HttpErr (List Rec) :=
  if rows = [] then .ok []
  else if (rows.map List.length).foldr Nat.max 0 ≠ 7 then
    .error ⟨500, "ValueError: 7 columns passed"⟩
  else if rows.any (fun r => r.length < 7) then
    .error ⟨500, "TypeError: remove_nested_spans on NaN"⟩
  else .ok (rows.map hsxRecOfCells)

/-- Function `get_hsx_list` (main.py lines 28-63) for one page.  `net k` is the result
of the `k`-th `requests.get` attempt for this page (the decoded JSON `rows`
cell lists, or a transport/JSON failure message).  The body contains exactly
one `requests.get` call — attempt 1 — with no retry loop and no `time.sleep`;
the second component is the list of sleep delays performed (none).  A request
failure is re-raised as `HTTPException(500, ...)` (lines 44-46). -/
def get_hsx_list (net : Nat → Except String (List (List String))) :
    Except HttpErr (List Rec) × List Nat :=
  (match net 1 with
   | .error e => .error ⟨500, "Loi khi request HSX: " ++ e⟩
   | .ok rows => get_hsx_list_rows rows,
   [])

/-- The `while page <= max_pages` loop of `get_hsx_list_all` (main.py lines
65-75), with `fuel` remaining iterations and `page` the next page number.
Returns the list of requested page numbers together with the loop result;
an exception raised by a page fetch propagates immediately. -/
def get_hsx_list_all_aux (fetch : Nat → Except HttpErr (List Rec)) :
    Nat → Nat → List Nat × Except HttpErr (List Rec)
  | 0, _ => ([], .ok [])
  | fuel + 1, page =>
    match fetch page with
    | .error e => ([page], .error e)
    | .ok df =>
      if df = [] then ([page], .ok [])
      else
        match get_hsx_list_all_aux fetch fuel (page + 1) with
        | (ps, .error e) => (page :: ps, .error e)
        | (ps, .ok rest) => (page :: ps, .ok (df ++ rest))

/-- Function `get_hsx_list_all()` as called by `main_handler` (main.py line 160): the
default `max_pages` is 100 and pages start at 1.  The final
`pd.concat(data_frames)` is the concatenation of the collected pages. -/
def get_hsx_list_all (fetch : Nat → Except HttpErr (List Rec)) :
    Except HttpErr (List Rec) :=
  (get_hsx_list_all_aux fetch 100 1).2

/-- The page numbers requested by `get_hsx_list_all()`. -/
def hsx_requested_pages (fetch : Nat → Except HttpErr (List Rec)) : List Nat :=
  (get_hsx_list_all_aux fetch 100 1).1

/-- Wrap an infallible page source as a fetch oracle. -/
def pureFetch (pages : Nat → List Rec) : Nat → Except HttpErr (List Rec) :=
  fun n => .ok (pages n)

/-! ## HNX browser-driven adapter (main.py lines 78-154) -/

/-- Function `crawl_current_page_from_html` (main.py lines 78-102) with the
BeautifulSoup parsing abstracted: the input is `none` when
`table#_tableDatas` (or its tbody) is absent from the HTML, otherwise the
list of `tr` rows, each given as its `td` cell texts
(`get_text(strip=True)` already applied).  A row needs at least 5 cells;
cells 1-4 become ticker, name, date and reason, the reason with every
occurrence of `"- "` and then every `"-"` removed (line 94), and
`exchange` fixed to `"HNX"`. -/
def crawl_current_page (table : Option (List (List String))) : List Rec :=
  match table with
  | none => []
  | some trs =>
    trs.filterMap fun cols =>
      if 5 ≤ cols.length then
        some { ticker := cols.getD 1 "", name := cols.getD 2 "", date := cols.getD 3 "",
               reason := pyReplace (pyReplace (cols.getD 4 "") "- " "") "-" "",
               exchange := "HNX" }
      else none

/-- Observable browser actions of one `crawl_hnx_data` invocation:
`p.chromium.launch` at entry, each `next_button.click()` issued (with the
index of the page it was issued on), and the final `browser.close()`. -/
inductive BAction where
  | launch : BAction
  | click : Nat → BAction
  | closeBrowser : BAction
deriving DecidableEq

/-- Oracle describing the page the browser displays after `idx` successful
next-clicks: whether `wait_for_selector("table#_tableDatas")` succeeds
within its timeout, the parsed table (input to `crawl_current_page`),
whether `query_selector("#next")` finds the control (it matches the element
whether enabled or disabled), whether the found control reports disabled
(Playwright's actionability check then makes `click()` raise a timeout),
and whether the click or the post-click waits fail for any other reason. -/
structure HnxPage where
  hasTable : Bool
  table : Option (List (List String))
  nextPresent : Bool
  nextDisabled : Bool
  clickFails : Bool

/-- The `while iteration < max_iterations` loop of `crawl_hnx_data`
(main.py lines 122-151): per iteration, wait for the table (absence breaks),
extract `df_new`, break if it is empty, filter out tickers already in
`seen`, break if nothing new remains, extend `seen` and append the new rows,
then look for `#next` (absence breaks) and click it (any exception breaks).
Returns the appended row chunks, in order, and the clicks issued. -/
def crawl_hnx_aux (pages : Nat → HnxPage) :
    Nat → Nat → List String → List (List Rec) × List BAction
  | 0, _, _ => ([], [])
  | fuel + 1, idx, seen =>
    let pg := pages idx
    if pg.hasTable = false then ([], [])
    else
      let dfNew := crawl_current_page pg.table
      if dfNew = [] then ([], [])
      else
        let newRows := dfNew.filter fun r => !(seen.contains r.ticker)
        if newRows = [] then ([], [])
        else
          let seen2 := seen ++ newRows.map Rec.ticker
          if pg.nextPresent = false then ([newRows], [])
          else if pg.nextDisabled || pg.clickFails then ([newRows], [.click idx])
          else
            let rest := crawl_hnx_aux pages fuel (idx + 1) seen2
            (newRows :: rest.1, .click idx :: rest.2)

/-- Function `crawl_hnx_data` (main.py lines 104-154): launches a browser, runs the
loop with `max_iterations = 50` starting from the first page with an empty
`seen` set, closes the browser, and returns the accumulated data
(`all_data` is the flattening of the returned chunks). -/
def crawl_hnx_data (pages : Nat → HnxPage) : List (List Rec) × List BAction :=
  let r := crawl_hnx_aux pages 50 0 []
  (r.1, .launch :: (r.2 ++ [.closeBrowser]))

/-! ## Aggregation endpoint (main.py lines 156-181) -/

/-- One row of `combined_df.to_dict(orient="records")` (main.py line 176)
after the date conversion: column order ticker, name, date, reason,
exchange.  `date` is `none` where `strftime` on a coerced `NaT` left the
float NaN in the frame. -/
structure OutRec where
  ticker : String
  name : String
  date : Option String
  reason : String
  exchange : String
deriving DecidableEq

/-- The record dicts of `combined_df.to_dict(orient="records")`: every
combined record is kept, its date now the normalized string or the NaN
(`none`) left by the coerced conversion. -/
def to_dict_records (comb : List Rec) : List OutRec :=
  comb.map fun r => ⟨r.ticker, r.name, normalize_date r.date, r.reason, r.exchange⟩

/-- Serialization of one record dict inside `JSONResponse.render`
(starlette calls `json.dumps(..., allow_nan=False, ...)` eagerly in
`Response.__init__`): a NaN raises
`ValueError("Out of range float values are not JSON compliant")`. -/
def dumpsRecord (o : OutRec) : Except String Json :=
  match o.date with
  | none => .error "Out of range float values are not JSON compliant"
  | some dstr =>
    .ok (Json.obj [("ticker", .str o.ticker), ("name", .str o.name), ("date", .str dstr),
                   ("reason", .str o.reason), ("exchange", .str o.exchange)])

/-- Serialization of the whole record list, raising at the first NaN. -/
def dumpsRecords : List OutRec → Except String (List Json)
  | [] => .ok []
  | o :: os =>
    match dumpsRecord o with
    | .error e => .error e
    | .ok j =>
      match dumpsRecords os with
      | .error e => .error e
      | .ok js => .ok (j :: js)

/-- Computes `pd.concat([hsx_all, hnx_all])` (main.py line 166) over the two adapter
results.  `net p k` is the outcome of attempt `k` of the request for HSX
page `p`; `pages` is the HNX browser oracle.  An exception from the HSX
fetch propagates (it is caught by `main_handler` and re-raised with status
500, which it already carries). -/
def combined_records (net : Nat → Nat → Except String (List (List String)))
    (pages : Nat → HnxPage) : Except HttpErr (List Rec) :=
  match get_hsx_list_all (fun p => (get_hsx_list (net p)).1) with
  | .error e => .error e
  | .ok hsxAll => .ok (hsxAll ++ (crawl_hnx_data pages).1.flatten)

/-- Endpoint `main_handler` (main.py lines 156-181).  Both adapters return
frames with no columns when they produced no rows, so when the combined
frame is empty the selection `combined_df["date"]` raises KeyError, caught
and re-raised as HTTPException 500.  Otherwise line 177 constructs a
starlette `JSONResponse`, whose `render` runs `json.dumps` with
`allow_nan=False` eagerly: if any record dict still holds the NaN of an
unparseable date, the ValueError is caught by the same `except` and the run
fails with a 500; only when every date serialized does the response carry
all combined records under the sole key `"data"`. -/
def main_handler (net : Nat → Nat → Except String (List (List String)))
    (pages : Nat → HnxPage) : Except HttpErr Json :=
  match combined_records net pages with
  | .error e => .error e
  | .ok comb =>
    if comb = [] then .error ⟨500, "KeyError: date"⟩
    else
      match dumpsRecords (to_dict_records comb) with
      | .error e => .error ⟨500, e⟩
      | .ok js => .ok (Json.obj [("data", Json.arr js)])

/-- The top-level keys of a successful response, `none` on failure. -/
def responseKeys (r : Except HttpErr Json) : Option (List String) :=
  match r with
  | .ok j => some j.keys
  | .error _ => none

/-! ## Concrete oracles used to evaluate the pipeline on closed inputs -/

/-- A page source on which every page is non-empty. -/
def c1FetchConst : Nat → Except HttpErr (List Rec) :=
  fun _ => .ok [⟨"A", "N", "01/01/2020", "r", "HOSE"⟩]

/-- Pages 1 and 2 non-empty, page 3 empty. -/
def c1FetchW : Nat → List Rec :=
  fun n => if n ≤ 2 then [⟨"B", "N", "01/01/2020", "r", "HOSE"⟩] else []

/-- HSX serves one well-formed row on page 1 and nothing afterwards. -/
def c2Net : Nat → Nat → Except String (List (List String)) := fun p _ =>
  if p = 1 then .ok [["1", "AAA", "c", "c", "Comp", "01/02/2023", "late"]] else .ok []

/-- A browser whose first page never shows the data table. -/
def c2Pages : Nat → HnxPage := fun _ => ⟨false, none, false, false, false⟩

/-- The expected successful response for `c2Net` and `c2Pages`. -/
def c2RespW : Json :=
  Json.obj [("data", Json.arr [Json.obj [("ticker", .str "AAA"), ("name", .str "Comp"),
    ("date", .str "2023-02-01"), ("reason", .str "late"), ("exchange", .str "HOSE")]])]

/-- HSX serves a single row whose date, 31/02/2023, is not a calendar date. -/
def c3Net : Nat → Nat → Except String (List (List String)) := fun p _ =>
  if p = 1 then .ok [["1", "XYZ", "c", "c", "Comp", "31/02/2023", "r"]] else .ok []

/-- A browser with no data table. -/
def c3Pages : Nat → HnxPage := fun _ => ⟨false, none, false, false, false⟩

/-- A request source that fails on attempts 1 and 2 and would succeed on 3. -/
def c4NetFail2 : Nat → Except String (List (List String)) := fun n =>
  if n ≤ 2 then .error "boom" else .ok [["1", "T", "c", "c", "N", "01/02/2023", "r"]]

/-- A request source whose first attempt fails. -/
def c4NetW : Nat → Except String (List (List String)) :=
  fun n => if n = 1 then .error "timeout" else .ok []

/-- A page with one 7-cell row and one 5-cell row. -/
def c5Rows : List (List String) :=
  [["1", "TK", "c", "c", "N", "01/02/2023", "ok"], ["2", "SH", "c", "c", "N"]]

/-- A page whose single row has exactly 7 cells. -/
def c5RowsW : List (List String) := [["1", "AB", "c", "c", "N", "01/01/2020", "r"]]

/-- First browser page has rows and a present-but-disabled next control. -/
def c6PagesDisabled : Nat → HnxPage := fun i =>
  if i = 0 then ⟨true, some [["1", "T1", "N1", "01/01/2020", "r"]], true, true, false⟩
  else ⟨false, none, false, false, false⟩

/-- First browser page has rows and no next control at all. -/
def c6PagesAbsent : Nat → HnxPage := fun i =>
  if i = 0 then ⟨true, some [["1", "T1", "N1", "01/01/2020", "r"]], false, false, false⟩
  else ⟨false, none, false, false, false⟩

/-- Two pages: an enabled next control on page 0, none on page 1. -/
def c6PagesTwo : Nat → HnxPage := fun i =>
  if i = 0 then ⟨true, some [["1", "T1", "N1", "01/01/2020", "r"]], true, false, false⟩
  else if i = 1 then ⟨true, some [["1", "T2", "N2", "02/01/2020", "r"]], false, false, false⟩
  else ⟨false, none, false, false, false⟩

/-- A browser with no data table on any page. -/
def c8Pages : Nat → HnxPage := fun _ => ⟨false, none, false, false, false⟩

/-- One extracted page containing two rows with the same ticker. -/
def c9PagesDup : Nat → HnxPage := fun i =>
  if i = 0 then
    ⟨true, some [["1", "TT", "N1", "01/01/2020", "r1"], ["2", "TT", "N2", "02/01/2020", "r2"]],
     false, false, false⟩
  else ⟨false, none, false, false, false⟩

/-- An HSX source all of whose pages decode to an empty rows list. -/
def c10Net : Nat → Nat → Except String (List (List String)) := fun _ _ => .ok []

/-- A browser with no data table. -/
def c10Pages : Nat → HnxPage := fun _ => ⟨false, none, false, false, false⟩

/-- A row from the HNX table with a leading marker and an inner hyphen. -/
def c7ColsW : List String := ["0", "AA", "BB", "02/03/2021", "x-y"]

/-! ## Helper lemmas -/

theorem isDigitCh_digitCh (n : Nat) : isDigitCh (digitCh n) = true := by
  have h : n % 10 < 10 := Nat.mod_lt _ (by omega)
  unfold digitCh
  generalize hk : n % 10 = t at h
  interval_cases t <;> decide

theorem chVal_digitCh (n : Nat) : chVal (digitCh n) = n % 10 := by
  have h : n % 10 < 10 := Nat.mod_lt _ (by omega)
  unfold digitCh chVal
  generalize hk : n % 10 = t at h
  interval_cases t <;> decide

theorem daysInMonth_le_31 (y m : Nat) : daysInMonth y m ≤ 31 := by
  unfold daysInMonth
  split <;> [split <;> omega; (split <;> omega)]

/-- Formatting a valid calendar date canonically and reparsing it yields the
identical date. -/
theorem parseISO_isoOfDate (y m d : Nat) (hy : y ≤ 9999) (hm1 : 1 ≤ m) (hm2 : m ≤ 12)
    (hd1 : 1 ≤ d) (hd2 : d ≤ daysInMonth y m) : parseISO (isoOfDate y m d) = some (y, m, d) := by
  have hy' : ((chVal (digitCh (y / 1000)) * 10 + chVal (digitCh (y / 100))) * 10 +
      chVal (digitCh (y / 10))) * 10 + chVal (digitCh y) = y := by
    rw [chVal_digitCh, chVal_digitCh, chVal_digitCh, chVal_digitCh]; omega
  have hm' : chVal (digitCh (m / 10)) * 10 + chVal (digitCh m) = m := by
    rw [chVal_digitCh, chVal_digitCh]; omega
  have hd' : chVal (digitCh (d / 10)) * 10 + chVal (digitCh d) = d := by
    have := daysInMonth_le_31 y m
    rw [chVal_digitCh, chVal_digitCh]; omega
  unfold isoOfDate parseISO
  simp only [String.toList]
  rw [hy', hm', hd']
  rw [if_pos ⟨trivial, trivial, isDigitCh_digitCh _, isDigitCh_digitCh _, isDigitCh_digitCh _,
    isDigitCh_digitCh _, isDigitCh_digitCh _, isDigitCh_digitCh _, isDigitCh_digitCh _,
    isDigitCh_digitCh _, hm1, hm2, hd1, hd2⟩]

/-- Any triple produced by `parseDMY` is a valid calendar date with a 4-digit
year. -/
theorem parseDMY_bounds (s : String) (y m d : Nat) (h : parseDMY s = some (y, m, d)) :
    y ≤ 9999 ∧ 1 ≤ m ∧ m ≤ 12 ∧ 1 ≤ d ∧ d ≤ daysInMonth y m := by
  unfold parseDMY at h
  split at h
  · dsimp only at h
    split at h
    · next hc =>
      obtain ⟨-, -, -, -, -, -, -, -, hd1, hm1, hm2, hdd, hlo, hhi⟩ := hc
      unfold tripleLE at hhi
      simp only [Option.some.injEq, Prod.mk.injEq] at h
      obtain ⟨hy, hm, hd⟩ := h
      subst hy; subst hm; subst hd
      refine ⟨?_, hm1, hm2, hd1, hdd⟩
      rcases hhi with h' | ⟨h', -⟩ <;> omega
    · exact absurd h (by simp)
  · exact absurd h (by simp)

/-- The requested-pages list of the pagination loop is a contiguous run. -/
theorem hsx_aux_inorder (fetch : Nat → Except HttpErr (List Rec)) :
    ∀ fuel start, ∃ m, m ≤ fuel ∧ (get_hsx_list_all_aux fetch fuel start).1 = List.range' start m := by
  intro fuel
  induction fuel with
  | zero => exact fun start => ⟨0, Nat.le_refl 0, rfl⟩
  | succ n ih =>
    intro start
    unfold get_hsx_list_all_aux
    cases hf : fetch start with
    | error e => exact ⟨1, by omega, by simp [List.range']⟩
    | ok df =>
      dsimp only
      by_cases hdf : df = []
      · rw [if_pos hdf]
        exact ⟨1, by omega, by simp [List.range']⟩
      · rw [if_neg hdf]
        obtain ⟨m, hm, hps⟩ := ih (start + 1)
        rcases hr : get_hsx_list_all_aux fetch n (start + 1) with ⟨ps, res⟩
        rw [hr] at hps
        cases res with
        | error e =>
          refine ⟨m + 1, by omega, ?_⟩
          simpa [List.range'_succ] using hps
        | ok rest =>
          refine ⟨m + 1, by omega, ?_⟩
          simpa [List.range'_succ] using hps

/-- When pages `start..k-1` are non-empty and page `k` is empty, the loop
requests exactly pages `start..k` and returns the concatenation of the
non-empty ones. -/
theorem hsx_aux_stops (pages : Nat → List Rec) :
    ∀ fuel start k, start ≤ k → k < start + fuel →
      (∀ n, start ≤ n → n < k → pages n ≠ []) → pages k = [] →
      get_hsx_list_all_aux (pureFetch pages) fuel start =
        (List.range' start (k + 1 - start),
         .ok (((List.range' start (k - start)).map pages).flatten)) := by
  intro fuel
  induction fuel with
  | zero => intro start k h1 h2 hne hk; omega
  | succ n ih =>
    intro start k h1 h2 hne hk
    unfold get_hsx_list_all_aux
    dsimp only [pureFetch]
    by_cases hs : start = k
    · subst hs
      rw [if_pos hk]
      have e1 : start + 1 - start = 1 := by omega
      have e2 : start - start = 0 := by omega
      rw [e1, e2]
      simp [List.range']
    · have hlt : start < k := lt_of_le_of_ne h1 hs
      have hne0 : pages start ≠ [] := hne start (Nat.le_refl start) hlt
      rw [if_neg hne0]
      rw [ih (start + 1) k (by omega) (by omega) (fun nn hn1 hn2 => hne nn (by omega) hn2) hk]
      dsimp only
      have e1 : k + 1 - start = (k + 1 - (start + 1)) + 1 := by omega
      have e2 : k - start = (k - (start + 1)) + 1 := by omega
      rw [e1, e2, List.range'_succ, List.range'_succ]
      simp

theorem mem_le_foldr_max (ns : List Nat) (n : Nat) (h : n ∈ ns) : n ≤ ns.foldr Nat.max 0 := by
  induction ns with
  | nil => cases h
  | cons a t ih =>
    rcases List.mem_cons.mp h with h' | h'
    · subst h'; exact Nat.le_max_left _ _
    · exact Nat.le_trans (ih h') (Nat.le_max_right _ _)

theorem foldr_max_all7 (rows : List (List String)) (hne : rows ≠ [])
    (h : ∀ r ∈ rows, r.length = 7) : (rows.map List.length).foldr Nat.max 0 = 7 := by
  induction rows with
  | nil => exact absurd rfl hne
  | cons a t ih =>
    have ha : a.length = 7 := h a (List.mem_cons_self a t)
    cases t with
    | nil => simp [ha]
    | cons b t2 =>
      have ht := ih (by simp) (fun r hr => h r (List.mem_cons_of_mem _ hr))
      simp only [List.map_cons, List.foldr_cons] at ht ⊢
      rw [ht, ha]
      rfl

/-- Every click recorded by the crawl loop was issued on a page whose next
control was found by `query_selector` (presence, not enabledness). -/
theorem crawl_click_present (pages : Nat → HnxPage) :
    ∀ fuel idx seen i, BAction.click i ∈ (crawl_hnx_aux pages fuel idx seen).2 →
      (pages i).nextPresent = true := by
  intro fuel
  induction fuel with
  | zero => intro idx seen i h; simp [crawl_hnx_aux] at h
  | succ n ih =>
    intro idx seen i h
    unfold crawl_hnx_aux at h
    dsimp only at h
    split at h
    · simp at h
    · split at h
      · simp at h
      · split at h
        · simp at h
        · split at h
          · simp at h
          · next hpres =>
            split at h
            · simp at h
              subst h
              rcases Bool.eq_false_or_eq_true ((pages i).nextPresent) with hb | hb
              · exact hb
              · exact absurd hb hpres
            · simp only [List.mem_cons] at h
              rcases h with h' | h'
              · injection h' with h''
                subst h''
                rcases Bool.eq_false_or_eq_true ((pages i).nextPresent) with hb | hb
                · exact hb
                · exact absurd hb hpres
              · exact ih _ _ _ h'

/-- No record whose ticker is already in `seen` is ever emitted by the crawl
loop. -/
theorem crawl_seen_excluded (pages : Nat → HnxPage) :
    ∀ fuel idx seen t, t ∈ seen →
      ∀ c ∈ (crawl_hnx_aux pages fuel idx seen).1, ∀ r ∈ c, r.ticker ≠ t := by
  intro fuel
  induction fuel with
  | zero => intro idx seen t ht c hc; simp [crawl_hnx_aux] at hc
  | succ n ih =>
    intro idx seen t ht c hc r hr
    unfold crawl_hnx_aux at hc
    dsimp only at hc
    split at hc
    · simp at hc
    · split at hc
      · simp at hc
      · split at hc
        · simp at hc
        · split at hc
          · simp at hc
            subst hc
            have := (List.mem_filter.mp hr).2
            intro hrt
            rw [hrt] at this
            simp at this
            exact this ht
          · split at hc
            · simp at hc
              subst hc
              have := (List.mem_filter.mp hr).2
              intro hrt
              rw [hrt] at this
              simp at this
              exact this ht
            · simp only [List.mem_cons] at hc
              rcases hc with hc' | hc'
              · subst hc'
                have := (List.mem_filter.mp hr).2
                intro hrt
                rw [hrt] at this
                simp at this
                exact this ht
              · exact ih _ _ t (List.mem_append_left _ ht) c hc' r hr

/-- The emitted chunks have pairwise-disjoint ticker sets. -/
theorem crawl_chunks_pairwise (pages : Nat → HnxPage) :
    ∀ fuel idx seen, ((crawl_hnx_aux pages fuel idx seen).1).Pairwise
      (fun c1 c2 => ∀ r ∈ c1, ∀ r2 ∈ c2, r.ticker ≠ r2.ticker) := by
  intro fuel
  induction fuel with
  | zero => intro idx seen; simp [crawl_hnx_aux]
  | succ n ih =>
    intro idx seen
    unfold crawl_hnx_aux
    dsimp only
    split
    · simp
    · split
      · simp
      · split
        · simp
        · split
          · simp
          · split
            · simp
            · refine List.pairwise_cons.mpr ⟨?_, ih _ _⟩
              intro c hc r hr r2 hr2
              have hmem : r.ticker ∈ seen ++
                  (((crawl_current_page (pages idx).table).filter
                    (fun r => !(seen.contains r.ticker))).map Rec.ticker) :=
                List.mem_append_right _ (List.mem_map_of_mem _ hr)
              exact (crawl_seen_excluded pages n (idx + 1) _ r.ticker hmem c hc r2 hr2).symm

/-- Replacing `"-"` by the empty string leaves no hyphen at any fuel. -/
theorem no_hyphen_replaceFuel : ∀ fuel l, '-' ∉ replaceFuel ['-'] [] fuel l := by
  intro fuel
  induction fuel with
  | zero => intro l; simp [replaceFuel]
  | succ n ih =>
    intro l
    cases l with
    | nil => simp [replaceFuel]
    | cons c cs =>
      by_cases hc : c = '-'
      · subst hc
        have hm : matchesAt ['-'] ('-' :: cs) = true := by simp [matchesAt]
        simp only [replaceFuel, hm, if_true]
        simpa using ih cs
      · have hm : matchesAt ['-'] (c :: cs) = false := by
          simp [matchesAt]
          exact fun h => hc h.symm
        simp only [replaceFuel, hm, Bool.false_eq_true, if_false, List.mem_cons]
        rintro (h | h)
        · exact hc h.symm
        · exact ih cs h

/-- Python `s.replace("-", "")` removes every hyphen. -/
theorem no_hyphen_pyReplace (s : String) : '-' ∉ (pyReplace s "-" "").toList :=
  no_hyphen_replaceFuel _ _

/-- Serializing record dicts none of which holds a NaN succeeds and emits
one JSON object per record. -/
theorem dumpsRecords_ok (os : List OutRec) (h : ∀ o ∈ os, o.date.isSome) :
    dumpsRecords os = .ok (os.map fun o =>
      Json.obj [("ticker", .str o.ticker), ("name", .str o.name),
                ("date", .str (o.date.getD "")), ("reason", .str o.reason),
                ("exchange", .str o.exchange)]) := by
  induction os with
  | nil => rfl
  | cons o os ih =>
    obtain ⟨v, hv⟩ := Option.isSome_iff_exists.mp (h o (List.mem_cons_self o os))
    unfold dumpsRecords dumpsRecord
    rw [hv]
    dsimp only
    rw [ih (fun o' ho' => h o' (List.mem_cons_of_mem _ ho'))]
    dsimp only
    rw [List.map_cons, hv]
    rfl

/-- Serializing record dicts one of which holds a NaN raises the
`allow_nan=False` ValueError. -/
theorem dumpsRecords_err (os : List OutRec) (o : OutRec) (ho : o ∈ os) (hd : o.date = none) :
    dumpsRecords os = .error "Out of range float values are not JSON compliant" := by
  induction os with
  | nil => cases ho
  | cons a os ih =>
    unfold dumpsRecords dumpsRecord
    cases ha : a.date with
    | none => rfl
    | some v =>
      dsimp only
      rcases List.mem_cons.mp ho with h' | h'
      · subst h'
        rw [ha] at hd
        cases hd
      · rw [ih h']

/-! ## Claim theorems -/

/-- C1 counterexample: on a source whose pages are all non-empty,
`get_hsx_list_all()` requests page 51, exceeding the page ceiling of 50
asserted by the spec (the default `max_pages` in main.py line 65 is 100). -/
theorem c1_counterexample : 51 ∈ hsx_requested_pages c1FetchConst := by decide

/-- C1 (amended: ceiling 100, not 50): `get_hsx_list_all()` requests pages
1, 2, 3, ... in order — the requested pages always form the contiguous run
`1..m` with `m ≤ 100` — and whenever pages `1..k-1` are non-empty and page
`k ≤ 100` is empty, it requests exactly pages `1..k` (no later page) and
returns the concatenation of pages `1..k-1` in page order. -/
theorem c1_pagination :
    (∀ fetch : Nat → Except HttpErr (List Rec),
      ∃ m, m ≤ 100 ∧ hsx_requested_pages fetch = List.range' 1 m)
    ∧ (∀ (pages : Nat → List Rec) (k : Nat), 1 ≤ k → k ≤ 100 →
      (∀ n, 1 ≤ n → n < k → pages n ≠ []) → pages k = [] →
      hsx_requested_pages (pureFetch pages) = List.range' 1 k ∧
        get_hsx_list_all (pureFetch pages) =
          .ok (((List.range' 1 (k - 1)).map pages).flatten)) := by
  constructor
  · intro fetch
    exact hsx_aux_inorder fetch 100 1
  · intro pages k hk1 hk100 hne hk
    have h := hsx_aux_stops pages 100 1 k hk1 (by omega) hne hk
    have e1 : k + 1 - 1 = k := by omega
    rw [e1] at h
    constructor
    · unfold hsx_requested_pages
      rw [h]
    · unfold get_hsx_list_all
      rw [h]

/-- C1 witness: with pages 1 and 2 non-empty and page 3 empty, exactly pages
1, 2, 3 are requested and pages 1-2 are concatenated. -/
theorem c1_pagination_witness :
    hsx_requested_pages (pureFetch c1FetchW) = List.range' 1 3 ∧
      get_hsx_list_all (pureFetch c1FetchW) = .ok (((List.range' 1 2).map c1FetchW).flatten) :=
  c1_pagination.2 c1FetchW 3 (by decide) (by decide)
    (fun n h1 h2 => by interval_cases n <;> decide) (by decide)

/-- C2 counterexample: a successful aggregation run whose serialized JSON
document has `"data"` as its only top-level key — there is no `"metadata"`
object and hence no `total` field (main.py line 177 returns
`{"data": result}`). -/
theorem c2_counterexample : responseKeys (main_handler c2Net c2Pages) = some ["data"] := by decide

/-- C2 (amended): every successful aggregation run serializes a JSON document
whose only top-level key is `"data"`; no metadata object is produced. -/
theorem c2_response_shape :
    ∀ net pages j, main_handler net pages = .ok j → j.keys = ["data"] := by
  intro net pages j h
  unfold main_handler at h
  split at h
  · exact absurd h (by simp)
  · split at h
    · exact absurd h (by simp)
    · split at h
      · exact absurd h (by simp)
      · simp only [Except.ok.injEq] at h
        subst h
        rfl

/-- C2 witness: the concrete successful run of `c2_counterexample`, via
`c2_response_shape`. -/
theorem c2_response_shape_witness : c2RespW.keys = ["data"] :=
  c2_response_shape c2Net c2Pages c2RespW (by rfl)

/-- C3 counterexample: a record whose date string 31/02/2023 is malformed is
not dropped with the rest of the run completing — the run fails outright.
The coerced `NaT` leaves a float NaN in the frame (main.py lines 169-174),
`to_dict(orient="records")` keeps the row, and starlette's `JSONResponse`
serializes with `json.dumps(allow_nan=False)`, so line 177 raises ValueError
inside the `try` and the request returns HTTP 500. -/
theorem c3_counterexample :
    main_handler c3Net c3Pages =
      .error ⟨500, "Out of range float values are not JSON compliant"⟩ := by rfl

/-- C3 (amended): every valid day/month/year date string normalizes to the
identical calendar date in canonical `YYYY-MM-DD` form (round-trip).  A
malformed date string is not handled by dropping the single record: the NaN
left by the coerced conversion makes the serializer raise, so the entire run
fails with HTTP 500; and when there is at least one record and every
record's date parses, the run succeeds with every combined record emitted,
dates in canonical form. -/
theorem c3_date_normalization :
    (∀ s y m d, parseDMY s = some (y, m, d) →
      normalize_date s = some (isoOfDate y m d) ∧ parseISO (isoOfDate y m d) = some (y, m, d))
    ∧ (∀ net pages comb r, combined_records net pages = .ok comb → r ∈ comb →
      parseDMY r.date = none →
      main_handler net pages =
        .error ⟨500, "Out of range float values are not JSON compliant"⟩)
    ∧ (∀ net pages comb, combined_records net pages = .ok comb → comb ≠ [] →
      (∀ r ∈ comb, (normalize_date r.date).isSome) →
      main_handler net pages = .ok (Json.obj [("data", Json.arr
        ((to_dict_records comb).map fun o =>
          Json.obj [("ticker", .str o.ticker), ("name", .str o.name),
                    ("date", .str (o.date.getD "")), ("reason", .str o.reason),
                    ("exchange", .str o.exchange)]))])) := by
  refine ⟨fun s y m d h => ?_, fun net pages comb r h hr hd => ?_,
    fun net pages comb h hne hall => ?_⟩
  · have hb := parseDMY_bounds s y m d h
    constructor
    · unfold normalize_date; rw [h]
    · exact parseISO_isoOfDate y m d hb.1 hb.2.1 hb.2.2.1 hb.2.2.2.1 hb.2.2.2.2
  · unfold main_handler
    rw [h]
    dsimp only
    rw [if_neg (List.ne_nil_of_mem hr)]
    have hdn : (normalize_date r.date) = none := by unfold normalize_date; rw [hd]
    rw [dumpsRecords_err (to_dict_records comb) ⟨r.ticker, r.name, normalize_date r.date,
      r.reason, r.exchange⟩ (List.mem_map_of_mem _ hr) hdn]
  · unfold main_handler
    rw [h]
    dsimp only
    rw [if_neg hne]
    rw [dumpsRecords_ok (to_dict_records comb) (by
      intro o ho
      obtain ⟨r, hrm, hro⟩ := List.mem_map.mp ho
      rw [← hro]
      exact hall r hrm)]

/-- C3 witness: 05/11/2024 normalizes to 2024-11-05 and parses back to the
same calendar date. -/
theorem c3_date_normalization_witness :
    normalize_date "05/11/2024" = some (isoOfDate 2024 11 5) ∧
      parseISO (isoOfDate 2024 11 5) = some (2024, 11, 5) :=
  c3_date_normalization.1 "05/11/2024" 2024 11 5 (by decide)

/-- C4 counterexample: for a request source that fails twice and would
succeed on the third attempt, `get_hsx_list` returns the first failure as an
HTTP 500 after zero inter-attempt delays — no retry policy exists (main.py
lines 40-46 issue a single `requests.get` with no retry loop or sleep). -/
theorem c4_counterexample :
    (get_hsx_list c4NetFail2).1 = .error ⟨500, "Loi khi request HSX: boom"⟩ ∧
      (get_hsx_list c4NetFail2).2.length = 0 := ⟨rfl, rfl⟩

/-- C4 (amended): adapter requests are attempted exactly once.  The outcome
of `get_hsx_list` depends only on the first attempt, and a first-attempt
failure is propagated immediately as an HTTPException 500 carrying the
original message, with an empty list of inter-attempt delays. -/
theorem c4_no_retry :
    (∀ net net2 : Nat → Except String (List (List String)),
      net 1 = net2 1 → get_hsx_list net = get_hsx_list net2)
    ∧ (∀ (net : Nat → Except String (List (List String))) (e : String), net 1 = .error e →
      (get_hsx_list net).1 = .error ⟨500, "Loi khi request HSX: " ++ e⟩ ∧
        (get_hsx_list net).2 = []) := by
  constructor
  · intro net net2 h
    unfold get_hsx_list
    rw [h]
  · intro net e h
    unfold get_hsx_list
    rw [h]
    exact ⟨rfl, rfl⟩

/-- C4 witness: a first attempt failing with "timeout" propagates at once
with no delays. -/
theorem c4_no_retry_witness :
    (get_hsx_list c4NetW).1 = .error ⟨500, "Loi khi request HSX: " ++ "timeout"⟩ ∧
      (get_hsx_list c4NetW).2 = [] :=
  c4_no_retry.2 c4NetW "timeout" (by decide)

/-- C5 counterexample: a page holding a 7-cell row and a 5-cell row is not
processed with the short row silently dropped — the whole page fetch raises
(the padded NaN reason cell makes `remove_nested_spans` raise a TypeError,
main.py line 59), so the 7-cell row is not returned either. -/
theorem c5_counterexample :
    get_hsx_list_rows c5Rows = .error ⟨500, "TypeError: remove_nested_spans on NaN"⟩ := by decide

/-- C5 (amended): a raw row whose cell count differs from 7 is not silently
excluded — any non-empty page containing such a row makes the page fetch
raise an error, aborting the run; when every row has exactly 7 cells, every
row is included in the normalized output. -/
theorem c5_row_arity :
    (∀ rows : List (List String), rows ≠ [] → (∃ r, r ∈ rows ∧ r.length ≠ 7) →
      ∃ e, get_hsx_list_rows rows = .error e)
    ∧ (∀ rows : List (List String), (∀ r ∈ rows, r.length = 7) →
      get_hsx_list_rows rows = .ok (rows.map hsxRecOfCells)) := by
  constructor
  · rintro rows hne ⟨r, hr, hlen⟩
    unfold get_hsx_list_rows
    rw [if_neg hne]
    by_cases hw : (rows.map List.length).foldr Nat.max 0 = 7
    · rw [if_neg (by omega)]
      have hlt : r.length < 7 := by
        have := mem_le_foldr_max (rows.map List.length) r.length (List.mem_map_of_mem _ hr)
        omega
      rw [if_pos (List.any_eq_true.mpr ⟨r, hr, decide_eq_true hlt⟩)]
      exact ⟨_, rfl⟩
    · rw [if_pos hw]
      exact ⟨_, rfl⟩
  · intro rows h
    by_cases hne : rows = []
    · subst hne; rfl
    · unfold get_hsx_list_rows
      rw [if_neg hne]
      rw [if_neg (by rw [foldr_max_all7 rows hne h]; omega)]
      rw [if_neg (by
        simp only [List.any_eq_true, not_exists, not_and]
        intro r hr
        have := h r hr
        simp [this])]

/-- C5 witness: a page whose single row has exactly 7 cells normalizes to
exactly that row's record. -/
theorem c5_row_arity_witness : get_hsx_list_rows c5RowsW = .ok (c5RowsW.map hsxRecOfCells) :=
  c5_row_arity.2 c5RowsW (by decide)

/-- C6 counterexample: with a present-but-disabled next control the crawler
still issues a click on it — main.py lines 142-146 only test presence of
`#next`, never its disabled state, so navigation (a click) does occur after
the control reports disabled. -/
theorem c6_counterexample :
    (c6PagesDisabled 0).nextDisabled = true ∧
      BAction.click 0 ∈ (crawl_hnx_data c6PagesDisabled).2 := by decide

/-- C6 (amended): once the next control is absent, no click is issued and
the crawl returns exactly the rows accumulated so far; the disabled state is
never consulted — every click issued by the crawl was issued on a page whose
control was present (enabled or not), and on a present-but-disabled control
a click is still attempted, after which the crawl terminates with the rows
accumulated up to that point. -/
theorem c6_termination :
    (∀ pages i, BAction.click i ∈ (crawl_hnx_data pages).2 → (pages i).nextPresent = true)
    ∧ ((crawl_hnx_data c6PagesAbsent).1 = [[⟨"T1", "N1", "01/01/2020", "r", "HNX"⟩]] ∧
       (crawl_hnx_data c6PagesAbsent).2 = [BAction.launch, BAction.closeBrowser])
    ∧ (crawl_hnx_data c6PagesDisabled).1 = [[⟨"T1", "N1", "01/01/2020", "r", "HNX"⟩]] := by
  refine ⟨?_, by decide, by decide⟩
  intro pages i h
  unfold crawl_hnx_data at h
  dsimp only at h
  simp only [List.mem_cons, List.mem_append] at h
  rcases h with h' | h' | h'
  · exact absurd h' (by simp)
  · exact crawl_click_present pages 50 0 [] i h'
  · simp at h'

/-- C6 witness: a crawl that clicked page 0 had a present control there. -/
theorem c6_termination_witness : (c6PagesTwo 0).nextPresent = true :=
  c6_termination.1 c6PagesTwo 0 (by decide)

/-- C8 counterexample: the action trace of a crawl invocation is
launch-then-close — the browser is closed before the invocation returns
(main.py lines 108-153: `async_playwright` context plus `browser.close()`),
so no live instance survives for a later invocation to reuse. -/
theorem c8_counterexample :
    (crawl_hnx_data c8Pages).2 = [BAction.launch, BAction.closeBrowser] := by decide

/-- C8 (amended): the browser handle is not shared process-wide state —
every crawl invocation launches a fresh browser as its first action and
unconditionally closes it as its last, so no instance is reused across
invocations. -/
theorem c8_browser_lifecycle : ∀ pages : Nat → HnxPage,
    (crawl_hnx_data pages).2.head? = some BAction.launch ∧
      (crawl_hnx_data pages).2.getLast? = some BAction.closeBrowser := by
  intro pages
  unfold crawl_hnx_data
  refine ⟨rfl, ?_⟩
  dsimp only
  rw [show BAction.launch :: ((crawl_hnx_aux pages 50 0 []).2 ++ [BAction.closeBrowser]) =
    (BAction.launch :: (crawl_hnx_aux pages 50 0 []).2) ++ [BAction.closeBrowser] from rfl]
  exact List.getLast?_concat _

/-- C9: within one browser crawl, per-page emitted chunks have pairwise
disjoint ticker sets (a ticker emitted from an earlier page is never emitted
again from a later page), while two same-ticker rows inside one extracted
page are both emitted (duplicates within a page are not filtered). -/
theorem c9_cross_page_dedup :
    (∀ pages, ((crawl_hnx_data pages).1).Pairwise
      (fun c1 c2 => ∀ r ∈ c1, ∀ r2 ∈ c2, r.ticker ≠ r2.ticker))
    ∧ (crawl_hnx_data c9PagesDup).1 =
        [[⟨"TT", "N1", "01/01/2020", "r1", "HNX"⟩, ⟨"TT", "N2", "02/01/2020", "r2", "HNX"⟩]] := by
  refine ⟨?_, by decide⟩
  intro pages
  exact crawl_chunks_pairwise pages 50 0 []

/-- C9 witness: the disjointness property instantiated at the concrete
duplicate-ticker crawl. -/
theorem c9_cross_page_dedup_witness :
    ((crawl_hnx_data c9PagesDup).1).Pairwise
      (fun c1 c2 => ∀ r ∈ c1, ∀ r2 ∈ c2, r.ticker ≠ r2.ticker) :=
  c9_cross_page_dedup.1 c9PagesDup

/-- C7 counterexample: the reason cell "- ABC-DEF" is normalized to
"ABCDEF", not to "ABC-DEF" — `replace("- ", "").replace("-", "")`
(main.py line 94) removes every occurrence, not only a leading marker, so
hyphens elsewhere in the reason are not preserved. -/
theorem c7_counterexample :
    crawl_current_page (some [["1", "ABC", "Name", "01/01/2020", "- ABC-DEF"]]) =
      [⟨"ABC", "Name", "01/01/2020", "ABCDEF", "HNX"⟩] ∧
    pyReplace (pyReplace "- ABC-DEF" "- " "") "-" "" ≠ "ABC-DEF" := by decide

/-- C7 (amended): a browser-source row with at least 5 cells maps cell 1 to
ticker, cell 2 to name, cell 3 to date text and cell 4 to reason, where the
reason has every occurrence of "- " removed and then every remaining "-"
removed — the normalized reason never contains a hyphen. -/
theorem c7_cell_mapping :
    (∀ cols : List String, 5 ≤ cols.length →
      crawl_current_page (some [cols]) =
        [{ ticker := cols.getD 1 "", name := cols.getD 2 "", date := cols.getD 3 "",
           reason := pyReplace (pyReplace (cols.getD 4 "") "- " "") "-" "",
           exchange := "HNX" }])
    ∧ (∀ s : String, '-' ∉ (pyReplace s "-" "").toList) := by
  constructor
  · intro cols h
    unfold crawl_current_page
    simp [List.filterMap_cons, h]
  · exact no_hyphen_pyReplace

/-- C7 witness: the cell mapping instantiated at a concrete 5-cell row. -/
theorem c7_cell_mapping_witness :
    crawl_current_page (some [c7ColsW]) =
      [{ ticker := c7ColsW.getD 1 "", name := c7ColsW.getD 2 "", date := c7ColsW.getD 3 "",
         reason := pyReplace (pyReplace (c7ColsW.getD 4 "") "- " "") "-" "",
         exchange := "HNX" }] :=
  c7_cell_mapping.1 c7ColsW (by decide)

/-- C10: when both adapters return zero records, the combined frame has no
columns, so selecting the `date` column raises a KeyError and the run fails
with an aggregate 500 error instead of succeeding with an empty data list. -/
theorem c10_empty_failure : ∀ net pages,
    get_hsx_list_all (fun p => (get_hsx_list (net p)).1) = .ok [] →
    (crawl_hnx_data pages).1 = [] →
    main_handler net pages = .error ⟨500, "KeyError: date"⟩ := by
  intro net pages h1 h2
  unfold main_handler combined_records
  rw [h1]
  dsimp only
  rw [h2]
  simp

/-- C10 witness: the concrete both-empty run fails with the 500 KeyError. -/
theorem c10_empty_failure_witness :
    main_handler c10Net c10Pages = .error ⟨500, "KeyError: date"⟩ :=
  c10_empty_failure c10Net c10Pages (by rfl) (by rfl)
